import Mathlib

/-!
# Verification of the gdshelpers Archimedean spiral module

Shallow embedding of `gdshelpers/parts/spiral.py`: the arc-length model, the
per-topology total-length functions, the theta solver's control flow, the
parametric path sampler and its derivative, the constructor's topology and
winding-direction dispatch, and the lazy waveguide cache. Floating-point
arithmetic is modelled over `ℝ`; Python's dynamic values (strings, numbers,
`None`) are modelled by an explicit sum type, and Python exceptions by
`Except`.
-/

open Real

/-- Embedding of `_arc_length_indefinite_integral(theta, a, b)`:
`np.sqrt((a+b*theta)^2 + b^2) * (a+b*theta) / (2*b)
  + 0.5*b*np.log(np.sqrt((a+b*theta)^2 + b^2) + a + b*theta)`. -/
noncomputable def arc_length_indefinite_integral (theta a b : ℝ) : ℝ :=
  Real.sqrt ((a + b * theta) ^ 2 + b ^ 2) * (a + b * theta) / (2 * b) +
    0.5 * b * Real.log (Real.sqrt ((a + b * theta) ^ 2 + b ^ 2) + a + b * theta)

/-- Embedding of `_arc_length_integral(theta, a, b)`: the definite arc length,
the indefinite antiderivative at `theta` minus its value at `0`. -/
noncomputable def arc_length_integral (theta a b : ℝ) : ℝ :=
  arc_length_indefinite_integral theta a b - arc_length_indefinite_integral 0 a b

/-- Embedding of `_spiral_length_angle(theta, a, b, out_angle)`: inward spiral
arm, two semicircles in the center, outward spiral arm. -/
noncomputable def spiral_length_angle (theta a b out_angle : ℝ) : ℝ :=
  arc_length_integral theta a b + Real.pi * a + arc_length_integral (theta + out_angle) a b

/-- Embedding of `_spiral_length_inline(theta, a, b)`. -/
noncomputable def spiral_length_inline (theta a b : ℝ) : ℝ :=
  spiral_length_angle theta a b (0.5 * Real.pi) +
    0.5 * Real.pi * (0.5 * a) +
    ((a + b * theta) - 0.5 * a)

/-- Embedding of `_spiral_length_inline_rel(theta, a, b)`: the inline length
minus the direct path from input to output. -/
noncomputable def spiral_length_inline_rel (theta a b : ℝ) : ℝ :=
  spiral_length_inline theta a b - (a + b * (theta + 0.5 * Real.pi) + 0.5 * a)

/-- Embedding of `_spiral_theta(length, wg_width, gap, min_bend_radius,
length_function)`.  `scipy.optimize.fsolve` is an external collaborator and is
passed in as an oracle argument; the body performs no parameter validation and
hands the residual and the seed `20*pi` straight to it. -/
noncomputable def spiral_theta (fsolve : (ℝ → ℝ) → ℝ → ℝ)
    (length wg_width gap min_bend_radius : ℝ) (length_function : ℝ → ℝ → ℝ → ℝ) : ℝ :=
  let a := 2 * min_bend_radius
  let b := 2 * (wg_width + gap) / (2 * Real.pi)
  fsolve (fun x => length_function x a b - length) (20 * Real.pi)

/-- Embedding of `_spiral_out_path(t, a, b, max_theta, min_theta, theta_offset,
direction)`; 2-vectors are modelled as `ℝ × ℝ`. -/
noncomputable def spiral_out_path (t a b max_theta min_theta theta_offset direction : ℝ) :
    ℝ × ℝ :=
  let theta := min_theta + t * (max_theta - min_theta)
  let r := a + b * theta
  (r * Real.sin (theta + theta_offset),
   r * (-direction * Real.cos (theta + theta_offset)) + direction * a)

/-- Embedding of `_d_spiral_out_path(t, a, b, max_theta, min_theta,
theta_offset, direction)`.  Note the source returns
`r * [cos(theta+offset), direction*sin(theta+offset)]` with no further factor. -/
noncomputable def d_spiral_out_path (t a b max_theta min_theta theta_offset direction : ℝ) :
    ℝ × ℝ :=
  let theta := min_theta + t * (max_theta - min_theta)
  let r := a + b * theta
  (r * Real.cos (theta + theta_offset), r * (direction * Real.sin (theta + theta_offset)))

/-- The tangent formula as the spec states it (for comparison with
`d_spiral_out_path`): `r(θ)·(cos(θ+φ₀), dir·sin(θ+φ₀))` multiplied by the
chain-rule factor `(θ_max − θ_min)`. -/
noncomputable def spec_claimed_tangent (t a b max_theta min_theta theta_offset direction : ℝ) :
    ℝ × ℝ :=
  let theta := min_theta + t * (max_theta - min_theta)
  let r := a + b * theta
  (r * Real.cos (theta + theta_offset) * (max_theta - min_theta),
   r * (direction * Real.sin (theta + theta_offset)) * (max_theta - min_theta))

/-- A dynamic Python value as it may be passed for `output_type` or
`winding_direction`: a string, a number, or `None`. -/
inductive PyVal where
  | str (s : String)
  | num (x : ℝ)
  | none

/-- The Python exceptions relevant here.  `invalidParameter` models the
`InvalidParameterError` named by the spec; `typeError` models Python's
built-in `TypeError` (e.g. from `float + str`). -/
inductive PyError where
  | typeError
  | invalidParameter
deriving DecidableEq

/-- Python's `value == "literal"` test: true only for the equal string;
false for any number, `None` or other string. -/
def py_eq_str (v : PyVal) (s : String) : Bool :=
  match v with
  | .str t => t == s
  | _ => false

/-- Embedding of `-1 if winding_direction == "left" else 1` in
`Spiral.__init__`. -/
noncomputable def winding_of (winding_direction : PyVal) : ℝ :=
  if py_eq_str winding_direction "left" then -1 else 1

/-- Embedding of the `out_theta` dispatch in `Spiral.__init__`: the chain of
string comparisons, whose final `else` computes `total_theta + output_type` —
an angular offset for a number, a `TypeError` for a non-numeric value. -/
noncomputable def spiral_out_theta (total_theta : ℝ) (output_type : PyVal) :
    Except PyError ℝ :=
  if py_eq_str output_type "inline" || py_eq_str output_type "inline_rel" then
    Except.ok (total_theta + 0.5 * Real.pi)
  else if py_eq_str output_type "opposite" then
    Except.ok total_theta
  else if py_eq_str output_type "single_inside" || py_eq_str output_type "single_outside" then
    Except.ok total_theta
  else
    match output_type with
    | .num phi => Except.ok (total_theta + phi)
    | _ => Except.error PyError.typeError

/-- The state `Spiral.__init__` leaves on the instance (ports and sampling
parameters aside). -/
structure SpiralCfg where
  width : ℝ
  gap : ℝ
  min_bend_radius : ℝ
  total_theta : ℝ
  output_type : PyVal
  winding_direction : ℝ
  out_theta : ℝ

/-- Embedding of `Spiral.__init__`: stores the parameters, resolves the
winding direction and the output angle. -/
noncomputable def spiral_init (width gap min_bend_radius theta : ℝ)
    (output_type winding_direction : PyVal) : Except PyError SpiralCfg :=
  (spiral_out_theta theta output_type).map fun ot =>
    { width := width, gap := gap, min_bend_radius := min_bend_radius,
      total_theta := theta, output_type := output_type,
      winding_direction := winding_of winding_direction, out_theta := ot }

/-- Embedding of the `length_fn` dispatch in `Spiral.make_at_port_with_length`.
The source's final `else` passes `output_type` itself as the extra
`out_angle` argument of `_spiral_length_angle`; when the solver then evaluates
`theta + out_angle` this is a silent angular offset for a number and a
`TypeError` for any other value. -/
noncomputable def length_fn_of (output_type : PyVal) : Except PyError (ℝ → ℝ → ℝ → ℝ) :=
  if py_eq_str output_type "inline" then
    Except.ok spiral_length_inline
  else if py_eq_str output_type "inline_rel" then
    Except.ok spiral_length_inline_rel
  else if py_eq_str output_type "opposite" then
    Except.ok (fun theta a b => spiral_length_angle theta a b 0)
  else if py_eq_str output_type "single_inside" || py_eq_str output_type "single_outside" then
    Except.ok (fun theta a b => arc_length_integral theta a b)
  else
    match output_type with
    | .num phi => Except.ok (fun theta a b => spiral_length_angle theta a b phi)
    | _ => Except.error PyError.typeError

/-- Embedding of `Spiral.make_at_port_with_length`: dispatch the length
function, solve for theta, then construct (with the default winding
direction `"right"`).  Any exception propagates to the caller. -/
noncomputable def make_at_port_with_length (fsolve : (ℝ → ℝ) → ℝ → ℝ)
    (port_width gap min_bend_radius target_length : ℝ) (output_type : PyVal) :
    Except PyError SpiralCfg :=
  match length_fn_of output_type with
  | Except.error e => Except.error e
  | Except.ok length_fn =>
      let theta := spiral_theta fsolve target_length port_width gap min_bend_radius length_fn
      spiral_init port_width gap min_bend_radius theta output_type (PyVal.str "right")

/-- C1: the Opposite-topology total length function is
`arc_length(θ) + π·a + arc_length(θ+δ)`, the `opposite` dispatch fixes
`δ = 0`, and the numeric (`AngleOffset`) variant is the same function with
`δ = φ`. -/
theorem opposite_length_formula (theta a b delta phi : ℝ) :
    spiral_length_angle theta a b delta =
        arc_length_integral theta a b + Real.pi * a +
          arc_length_integral (theta + delta) a b ∧
      length_fn_of (PyVal.str "opposite") =
        Except.ok (fun theta a b => spiral_length_angle theta a b 0) ∧
      length_fn_of (PyVal.num phi) =
        Except.ok (fun theta a b => spiral_length_angle theta a b phi) :=
  ⟨rfl, rfl, rfl⟩

/-- C6: the definite arc-length function vanishes at `theta = 0` for all
valid `a, b > 0`. -/
theorem arc_length_at_zero (a b : ℝ) (ha : 0 < a) (hb : 0 < b) :
    arc_length_integral 0 a b = 0 :=
  sub_self _

/-- Witness for C6 at `a = b = 1`. -/
theorem arc_length_at_zero_witness :
    (0 : ℝ) < 1 ∧ arc_length_integral 0 1 1 = 0 :=
  ⟨by norm_num, arc_length_at_zero 1 1 (by norm_num) (by norm_num)⟩

/-- C5: the InlineRelative length equals the Inline length minus exactly the
direct-path length `a + b·(θ+π/2) + a/2`, and hence (for `a > 0`, `b ≥ 0`,
`θ ≥ 0`) is strictly shorter. -/
theorem inline_rel_vs_inline (theta a b : ℝ) :
    spiral_length_inline_rel theta a b =
        spiral_length_inline theta a b - (a + b * (theta + Real.pi / 2) + a / 2) ∧
      (0 < a → 0 ≤ b → 0 ≤ theta →
        spiral_length_inline_rel theta a b < spiral_length_inline theta a b) := by
  constructor
  · unfold spiral_length_inline_rel
    ring
  · intro ha hb htheta
    have hpi : (0 : ℝ) < Real.pi := Real.pi_pos
    have hmul : 0 ≤ b * (theta + 0.5 * Real.pi) := by positivity
    unfold spiral_length_inline_rel
    nlinarith

/-- Witness for C5 at `θ = 0`, `a = 1`, `b = 1`. -/
theorem inline_rel_vs_inline_witness :
    spiral_length_inline_rel 0 1 1 =
        spiral_length_inline 0 1 1 - (1 + 1 * (0 + Real.pi / 2) + 1 / 2) ∧
      spiral_length_inline_rel 0 1 1 < spiral_length_inline 0 1 1 :=
  ⟨(inline_rel_vs_inline 0 1 1).1,
   (inline_rel_vs_inline 0 1 1).2 (by norm_num) (by norm_num) (by norm_num)⟩

/-- A path operation appended to the external waveguide builder by
`Spiral._generate`. -/
inductive Segment where
  | parameterizedPath (path path_derivative : ℝ → ℝ × ℝ)
  | bend (angle radius : ℝ)
  | straight (length : ℝ)

/-- Embedding of `Spiral._generate`: the ordered operations appended to the
external `Waveguide` builder, selected by the output type exactly as in the
source's four conditionals. -/
noncomputable def generate (cfg : SpiralCfg) : List Segment :=
  let a := 2 * cfg.min_bend_radius
  let b := 2 * (cfg.width + cfg.gap) / (2 * Real.pi)
  let outer_r := a + b * cfg.total_theta
  (if py_eq_str cfg.output_type "single_outside" then [] else
    [Segment.parameterizedPath
      (fun x => -spiral_out_path (1 - x) a b cfg.total_theta 0 (-cfg.total_theta)
          cfg.winding_direction - (0, cfg.winding_direction * (-a + outer_r)))
      (fun x => d_spiral_out_path (1 - x) a b cfg.total_theta 0 (-cfg.total_theta)
          cfg.winding_direction)]) ++
  (if py_eq_str cfg.output_type "single_inside" || py_eq_str cfg.output_type "single_outside"
    then [] else
    [Segment.bend (-cfg.winding_direction * Real.pi) cfg.min_bend_radius,
     Segment.bend (cfg.winding_direction * Real.pi) cfg.min_bend_radius]) ++
  (if py_eq_str cfg.output_type "single_inside" then [] else
    [Segment.parameterizedPath
      (fun x => spiral_out_path x a b cfg.out_theta 0 0 cfg.winding_direction)
      (fun x => d_spiral_out_path x a b cfg.out_theta 0 0 cfg.winding_direction)]) ++
  (if py_eq_str cfg.output_type "inline" || py_eq_str cfg.output_type "inline_rel" then
    [Segment.straight (outer_r - cfg.min_bend_radius),
     Segment.bend (-0.5 * cfg.winding_direction * Real.pi) cfg.min_bend_radius] else [])

/-- The mutable part of a `Spiral` instance: its configuration and the
`_wg` cache slot (`None` right after `__init__`).  Modelled from the spec:
the external `Waveguide` object is represented by its appended operation
list, and a constructed `Waveguide` is truthy, so `if not self._wg:` is a
presence test on the cache slot. -/
structure SpiralState where
  cfg : SpiralCfg
  wg_cache : Option (List Segment)

/-- `__init__` leaves `self._wg = None`. -/
def mk_spiral_state (cfg : SpiralCfg) : SpiralState :=
  { cfg := cfg, wg_cache := Option.none }

/-- Embedding of the `wg` property: `if not self._wg: self._generate()`;
returns the realized path together with the possibly-updated instance state.
The accessors `length`, `out_port` and `get_shapely_object` all read through
this property. -/
noncomputable def wg_access (s : SpiralState) : List Segment × SpiralState :=
  match s.wg_cache with
  | Option.some w => (w, s)
  | Option.none =>
      let w := generate s.cfg
      (w, { s with wg_cache := Option.some w })

lemma length_fn_of_ne_invalid (ot : PyVal) :
    length_fn_of ot ≠ Except.error PyError.invalidParameter := by
  unfold length_fn_of
  split_ifs
  · simp
  · simp
  · simp
  · simp
  · cases ot <;> simp

lemma spiral_out_theta_ne_invalid (theta : ℝ) (ot : PyVal) :
    spiral_out_theta theta ot ≠ Except.error PyError.invalidParameter := by
  unfold spiral_out_theta
  split_ifs
  · simp
  · simp
  · simp
  · cases ot <;> simp

lemma spiral_init_ne_invalid (w gap mbr theta : ℝ) (ot wd : PyVal) :
    spiral_init w gap mbr theta ot wd ≠ Except.error PyError.invalidParameter := by
  unfold spiral_init
  cases hot : spiral_out_theta theta ot with
  | error e =>
      have h := spiral_out_theta_ne_invalid theta ot
      rw [hot] at h
      simpa [Except.map] using h
  | ok v => simp [Except.map]

/-- C3 (amended): the length-driven constructor performs no parameter
validation at all: for every solver oracle, every `target_length`, `width`,
`gap` and `min_bend_radius` (non-positive values included) and every output
type, it never raises `InvalidParameterError`. -/
theorem no_invalid_parameter_check (fsolve : (ℝ → ℝ) → ℝ → ℝ)
    (w gap mbr target : ℝ) (ot : PyVal) :
    make_at_port_with_length fsolve w gap mbr target ot ≠
      Except.error PyError.invalidParameter := by
  unfold make_at_port_with_length
  cases hfn : length_fn_of ot with
  | error e =>
      have h := length_fn_of_ne_invalid ot
      rw [hfn] at h
      simpa using h
  | ok f =>
      simpa using
        spiral_init_ne_invalid w gap mbr
          (spiral_theta fsolve target w gap mbr f) ot (PyVal.str "right")

/-- C3 counterexample: with `target_length = -1 ≤ 0` (and otherwise the
spec's own concrete scenario parameters) construction succeeds — no
`InvalidParameterError` is raised. -/
theorem no_invalid_parameter_check_cex :
    (make_at_port_with_length (fun _ _ => 0) 1 5 35 (-1) (PyVal.str "opposite")).isOk
      = true := rfl

/-- C4 (amended): an output-type tag that is none of the five recognized
strings is passed to the numeric-fallback branch: a number is silently
interpreted as an angular offset, while any other string raises a plain
`TypeError` (from `total_theta + output_type`), not `InvalidParameterError`. -/
theorem unrecognized_tag_fallback (theta : ℝ) (tag : String)
    (h : tag ≠ "inline" ∧ tag ≠ "inline_rel" ∧ tag ≠ "opposite" ∧
      tag ≠ "single_inside" ∧ tag ≠ "single_outside") :
    spiral_out_theta theta (PyVal.str tag) = Except.error PyError.typeError ∧
      ∀ phi : ℝ, spiral_out_theta theta (PyVal.num phi) = Except.ok (theta + phi) := by
  obtain ⟨h1, h2, h3, h4, h5⟩ := h
  constructor
  · simp [spiral_out_theta, py_eq_str, h1, h2, h3, h4, h5]
  · intro phi
    rfl

/-- Witness for C4's amended claim at the unrecognized tag `"Inline"`. -/
theorem unrecognized_tag_fallback_witness :
    spiral_out_theta 1 (PyVal.str "Inline") = Except.error PyError.typeError ∧
      spiral_out_theta 1 (PyVal.num 2) = Except.ok (1 + 2) :=
  ⟨(unrecognized_tag_fallback 1 "Inline" (by decide)).1,
   (unrecognized_tag_fallback 1 "Inline" (by decide)).2 2⟩

/-- C4 counterexample: for the unrecognized tag `"Opposite"` construction
does not fail with `InvalidParameterError` (it raises a `TypeError`
instead). -/
theorem unrecognized_tag_fallback_cex :
    spiral_out_theta 0 (PyVal.str "Opposite") ≠
      Except.error PyError.invalidParameter := by
  intro h
  rw [show spiral_out_theta 0 (PyVal.str "Opposite") = Except.error PyError.typeError
    from rfl] at h
  exact PyError.noConfusion (Except.error.inj h)

/-- C8: the outbound winding angle `out_theta` is `theta_total` for
`opposite`, `single_inside` and `single_outside`, `theta_total + π/2` for
`inline` and `inline_rel`, and `theta_total + φ` for a numeric offset `φ`. -/
theorem out_theta_dispatch (theta phi : ℝ) :
    spiral_out_theta theta (PyVal.str "opposite") = Except.ok theta ∧
    spiral_out_theta theta (PyVal.str "single_inside") = Except.ok theta ∧
    spiral_out_theta theta (PyVal.str "single_outside") = Except.ok theta ∧
    spiral_out_theta theta (PyVal.str "inline") = Except.ok (theta + Real.pi / 2) ∧
    spiral_out_theta theta (PyVal.str "inline_rel") = Except.ok (theta + Real.pi / 2) ∧
    spiral_out_theta theta (PyVal.num phi) = Except.ok (theta + phi) := by
  refine ⟨rfl, rfl, rfl, ?_, ?_, rfl⟩ <;>
    · rw [show (Real.pi / 2 : ℝ) = 0.5 * Real.pi by ring]
      rfl

/-- C10: the winding direction is `-1` only for the exact string `"left"`;
every other value — other strings, any number, `None` — silently yields `1`
and construction proceeds. -/
theorem winding_direction_dispatch :
    winding_of (PyVal.str "left") = -1 ∧
      (∀ s : String, s ≠ "left" → winding_of (PyVal.str s) = 1) ∧
      (∀ x : ℝ, winding_of (PyVal.num x) = 1) ∧
      winding_of PyVal.none = 1 := by
  refine ⟨rfl, ?_, fun x => rfl, rfl⟩
  intro s hs
  simp [winding_of, py_eq_str, beq_iff_eq, hs]

/-- Witness for C10 at the near-miss strings `"LEFT"` and `"Left"`. -/
theorem winding_direction_dispatch_witness :
    winding_of (PyVal.str "LEFT") = 1 ∧ winding_of (PyVal.str "Left") = 1 :=
  ⟨winding_direction_dispatch.2.1 "LEFT" (by decide),
   winding_direction_dispatch.2.1 "Left" (by decide)⟩

/-- C9: the realized path is computed on first access (the cache starts out
empty and the first access fills it with `generate cfg`), the cache is
written at most once (an access on a filled cache returns the state
unchanged), subsequent accesses return the identical cached realization
without recomputation, and no access mutates the configuration. -/
theorem lazy_wg_cache (cfg : SpiralCfg) (s : SpiralState) :
    (mk_spiral_state cfg).wg_cache = Option.none ∧
      wg_access (mk_spiral_state cfg) =
        (generate cfg, { cfg := cfg, wg_cache := Option.some (generate cfg) }) ∧
      ((wg_access s).2).cfg = s.cfg ∧
      wg_access ((wg_access s).2) = ((wg_access s).1, (wg_access s).2) := by
  refine ⟨rfl, rfl, ?_, ?_⟩ <;>
    · cases h : s.wg_cache <;> simp [wg_access, h]

/-- C2 (amended): the path-derivative function returns
`r(θ)·(cos(θ+φ₀), dir·sin(θ+φ₀))` with no chain-rule factor; the spec's
claimed tangent is exactly `(θ_max − θ_min)` times this value componentwise. -/
theorem tangent_missing_chain_factor (t a b max_theta min_theta theta_offset direction : ℝ) :
    d_spiral_out_path t a b max_theta min_theta theta_offset direction =
        ((a + b * (min_theta + t * (max_theta - min_theta))) *
            Real.cos (min_theta + t * (max_theta - min_theta) + theta_offset),
         (a + b * (min_theta + t * (max_theta - min_theta))) *
            (direction * Real.sin (min_theta + t * (max_theta - min_theta) + theta_offset))) ∧
      spec_claimed_tangent t a b max_theta min_theta theta_offset direction =
        ((max_theta - min_theta) *
            (d_spiral_out_path t a b max_theta min_theta theta_offset direction).1,
         (max_theta - min_theta) *
            (d_spiral_out_path t a b max_theta min_theta theta_offset direction).2) := by
  constructor
  · rfl
  · simp only [spec_claimed_tangent, d_spiral_out_path]
    exact Prod.ext (by ring) (by ring)

/-- C2 counterexample: at `t = 0`, `a = 1`, `b = 0`, `θ_max = 2`,
`θ_min = θ_offset = 0`, `dir = -1`, the code's derivative value differs from
the spec's claimed tangent (first components `1` versus `2`). -/
theorem tangent_missing_chain_factor_cex :
    d_spiral_out_path 0 1 0 2 0 0 (-1) ≠ spec_claimed_tangent 0 1 0 2 0 0 (-1) := by
  intro h
  have h1 := congrArg Prod.fst h
  norm_num [d_spiral_out_path, spec_claimed_tangent] at h1

lemma sqrt_sq_add_sq_pos (u b : ℝ) (hb : b ≠ 0) : 0 < Real.sqrt (u ^ 2 + b ^ 2) := by
  apply Real.sqrt_pos.mpr
  have hbsq : 0 < b ^ 2 := by positivity
  nlinarith [sq_nonneg u]

lemma sqrt_sq_add_sq_add_pos (u b : ℝ) (hb : b ≠ 0) :
    0 < Real.sqrt (u ^ 2 + b ^ 2) + u := by
  have h1 : |u| < Real.sqrt (u ^ 2 + b ^ 2) := by
    rw [← Real.sqrt_sq_eq_abs]
    apply Real.sqrt_lt_sqrt (sq_nonneg u)
    have hbsq : 0 < b ^ 2 := by positivity
    linarith
  have h2 : -u ≤ |u| := neg_le_abs u
  linarith

lemma spiral_deriv_algebra (u b s : ℝ) (hb : 0 < b) (hs : 0 < s) (hsu : 0 < s + u)
    (h2 : s ^ 2 = u ^ 2 + b ^ 2) :
    (2 * u * b / (2 * s) * u + s * b) / (2 * b) +
      0.5 * b * ((2 * u * b / (2 * s) + b) / (s + u)) = s := by
  have hbne : b ≠ 0 := ne_of_gt hb
  have hsne : s ≠ 0 := ne_of_gt hs
  have hsune : s + u ≠ 0 := ne_of_gt hsu
  have t1 : (2 * u * b / (2 * s) * u + s * b) / (2 * b) = (u ^ 2 + s ^ 2) / (2 * s) := by
    field_simp
    ring
  have t2 : 0.5 * b * ((2 * u * b / (2 * s) + b) / (s + u)) = b ^ 2 / (2 * s) := by
    field_simp
    ring
  rw [t1, t2, div_add_div_same, show u ^ 2 + s ^ 2 + b ^ 2 = 2 * s ^ 2 by rw [h2]; ring]
  field_simp
  ring

lemma hasDerivAt_arc_length_indefinite (a b theta : ℝ) (hb : 0 < b) :
    HasDerivAt (fun t => arc_length_indefinite_integral t a b)
      (Real.sqrt ((a + b * theta) ^ 2 + b ^ 2)) theta := by
  have hbne : b ≠ 0 := ne_of_gt hb
  have hSpos : 0 < Real.sqrt ((a + b * theta) ^ 2 + b ^ 2) :=
    sqrt_sq_add_sq_pos _ b hbne
  have hSupos : 0 < Real.sqrt ((a + b * theta) ^ 2 + b ^ 2) + (a + b * theta) :=
    sqrt_sq_add_sq_add_pos _ b hbne
  have hS2 : Real.sqrt ((a + b * theta) ^ 2 + b ^ 2) ^ 2 = (a + b * theta) ^ 2 + b ^ 2 :=
    Real.sq_sqrt (by positivity)
  have hu : HasDerivAt (fun t : ℝ => a + b * t) b theta := by
    simpa using ((hasDerivAt_id theta).const_mul b).const_add a
  have hinner : HasDerivAt (fun t : ℝ => (a + b * t) ^ 2 + b ^ 2)
      (2 * (a + b * theta) * b) theta := by
    have h := (hu.pow 2).add_const (b ^ 2)
    norm_num at h
    convert h using 1
  have hinnerne : ((a + b * theta) ^ 2 + b ^ 2) ≠ 0 := by positivity
  have hS : HasDerivAt (fun t : ℝ => Real.sqrt ((a + b * t) ^ 2 + b ^ 2))
      (2 * (a + b * theta) * b / (2 * Real.sqrt ((a + b * theta) ^ 2 + b ^ 2))) theta :=
    hinner.sqrt hinnerne
  have hterm1 : HasDerivAt
      (fun t : ℝ => Real.sqrt ((a + b * t) ^ 2 + b ^ 2) * (a + b * t) / (2 * b))
      ((2 * (a + b * theta) * b / (2 * Real.sqrt ((a + b * theta) ^ 2 + b ^ 2))
          * (a + b * theta)
        + Real.sqrt ((a + b * theta) ^ 2 + b ^ 2) * b) / (2 * b)) theta :=
    (hS.mul hu).div_const (2 * b)
  have hbt : HasDerivAt (fun t : ℝ => b * t) b theta := by
    simpa using (hasDerivAt_id theta).const_mul b
  have hsum : HasDerivAt
      (fun t : ℝ => Real.sqrt ((a + b * t) ^ 2 + b ^ 2) + a + b * t)
      (2 * (a + b * theta) * b / (2 * Real.sqrt ((a + b * theta) ^ 2 + b ^ 2)) + b) theta := by
    have h := (hS.add_const a).add hbt
    simpa using h
  have hlog : HasDerivAt
      (fun t : ℝ => Real.log (Real.sqrt ((a + b * t) ^ 2 + b ^ 2) + a + b * t))
      ((2 * (a + b * theta) * b / (2 * Real.sqrt ((a + b * theta) ^ 2 + b ^ 2)) + b)
        / (Real.sqrt ((a + b * theta) ^ 2 + b ^ 2) + (a + b * theta))) theta := by
    have h := hsum.log (by
      show Real.sqrt ((a + b * theta) ^ 2 + b ^ 2) + a + b * theta ≠ 0
      have : Real.sqrt ((a + b * theta) ^ 2 + b ^ 2) + a + b * theta =
          Real.sqrt ((a + b * theta) ^ 2 + b ^ 2) + (a + b * theta) := by ring
      rw [this]
      exact ne_of_gt hSupos)
    convert h using 1
    ring_nf
  have hterm2 := hlog.const_mul (0.5 * b)
  have htotal := hterm1.add hterm2
  have hkey : Real.sqrt ((a + b * theta) ^ 2 + b ^ 2) =
      (2 * (a + b * theta) * b / (2 * Real.sqrt ((a + b * theta) ^ 2 + b ^ 2))
          * (a + b * theta)
        + Real.sqrt ((a + b * theta) ^ 2 + b ^ 2) * b) / (2 * b)
      + 0.5 * b *
          ((2 * (a + b * theta) * b / (2 * Real.sqrt ((a + b * theta) ^ 2 + b ^ 2)) + b)
            / (Real.sqrt ((a + b * theta) ^ 2 + b ^ 2) + (a + b * theta))) := by
    have h := spiral_deriv_algebra (a + b * theta) b
      (Real.sqrt ((a + b * theta) ^ 2 + b ^ 2)) hb hSpos hSupos hS2
    linarith [h]
  rw [hkey]
  exact htotal

lemma arc_length_indefinite_strictMono (a b : ℝ) (hb : 0 < b) :
    StrictMono (fun t => arc_length_indefinite_integral t a b) :=
  @strictMono_of_hasDerivAt_pos
    (fun t => arc_length_indefinite_integral t a b)
    (fun t => Real.sqrt ((a + b * t) ^ 2 + b ^ 2))
    (fun t => hasDerivAt_arc_length_indefinite a b t hb)
    (fun t => sqrt_sq_add_sq_pos _ b (ne_of_gt hb))

/-- C7: for fixed `a, b > 0` the definite arc-length function is strictly
increasing in `theta` on `theta ≥ 0` (its derivative is the arc-length
element `√(r(θ)² + b²) > 0`). -/
theorem arc_length_strict_increasing (a b theta1 theta2 : ℝ) (ha : 0 < a) (hb : 0 < b)
    (h0 : 0 ≤ theta1) (h12 : theta1 < theta2) :
    arc_length_integral theta1 a b < arc_length_integral theta2 a b := by
  have h := arc_length_indefinite_strictMono a b hb h12
  unfold arc_length_integral
  simp only at h
  exact sub_lt_sub_right h (arc_length_indefinite_integral 0 a b)

/-- Witness for C7 at `a = b = 1`, `theta1 = 0`, `theta2 = 1`. -/
theorem arc_length_strict_increasing_witness :
    (0:ℝ) < 1 ∧ (0:ℝ) ≤ 0 ∧
      arc_length_integral 0 1 1 < arc_length_integral 1 1 1 :=
  ⟨by norm_num, le_refl 0,
   arc_length_strict_increasing 1 1 0 1 (by norm_num) (by norm_num) (by norm_num)
     (by norm_num)⟩
